import Mathlib

/-!
Shallow embedding of `src/python/sciwebvis/figure.py` (the `sciwiz`
scene-graph module): `Figure`, `Axes`, `Scatter`, `Surface`, the
identity-deduplicating data and material registries, and rendering.

Modelling conventions:
* Python object identity (`is`) is modelled by a `tok : Nat` identity
  token carried by every heap object (ndarrays, materials); two values
  with the same token represent the same Python object.
* `str(uuid.uuid4())` is modelled by a stream `gen : Nat → String` of
  pairwise-distinct candidate IDs together with a cursor `pos` in the
  `Figure` state; each call to the uuid generator consumes the next
  stream element.  The `while has_key` collision-retry loop becomes the
  search for the first fresh stream element at or after the cursor.
* Python dictionaries are association lists in insertion order;
  assignment `d[k] = v` overwrites in place or appends (`dictInsert`).
* A raised exception is an `Except.error` result; every stateful
  operation returns its post-state as well, so mutations performed
  before a raise stay visible (as they do in Python).
* The `material` module is not part of the source tree.  Material
  objects are modelled from the spec: an opaque object with a unique
  `ID` and an `addToFigure` binding hook; hook invocations are recorded
  in a `hookLog` trace field on the figure state.
-/

/-- A numpy `ndarray` value: `tok` is the object identity, `val` the
array contents (value equality compares `val`, identity compares
`tok`). -/
structure NDArray where
  tok : Nat
  val : List Int
deriving DecidableEq, Repr

/-- Modelled from the spec: a `Material` object (the
`sciwebvis.material` module is not in `src/`); per the spec it carries
an opaque unique `ID` assigned at construction and an
`addToFigure(figure)` binding hook.  `tok` is the object identity. -/
structure MaterialObj where
  tok : Nat
  ID : String
deriving DecidableEq, Repr

/-- Modelled from the spec: an opaque background color value (the
`sciwebvis.color` module is not in `src/`); only its identity as a
configuration value matters here. -/
inductive Color where
  | default
  | custom (n : Nat)
deriving DecidableEq, Repr

/-- A dynamically typed Python value, as far as the type checks in
`figure.py` can distinguish them. -/
inductive PyVal where
  | ndarray (a : NDArray)
  | material (m : MaterialObj)
  | str (s : String)
  | int (n : Int)
  | pydict
  | pynone
deriving DecidableEq, Repr

/-- A raised Python exception: `TypeError` or a plain `Exception`. -/
inductive Err where
  | typeError (msg : String)
  | exception (msg : String)
deriving DecidableEq, Repr

/-- The error raised by the read-only `data` property setters. -/
def immutableViolation : Err :=
  Err.exception "data source dictionary cannot be set"

/-- The stream of `str(uuid.uuid4())` outputs: pairwise-distinct
candidate ID strings. -/
structure UUIDGen where
  gen : Nat → String
  inj : Function.Injective gen

/-- An injective stream always has an element at or after `start` that
avoids the finite list `used` (termination of the collision-retry
loop). -/
theorem UUIDGen.exists_fresh (g : UUIDGen) (used : List String) (start : Nat) :
    ∃ n, start ≤ n ∧ g.gen n ∉ used := by
  by_contra hcon
  push_neg at hcon
  have hall : ∀ k : Fin (used.length + 1), g.gen (start + k.1) ∈ used := by
    intro k
    exact hcon (start + k.1) (Nat.le_add_right _ _)
  have hinj : Set.InjOn (fun k : Fin (used.length + 1) => g.gen (start + k.1))
      ↑(Finset.univ : Finset (Fin (used.length + 1))) := by
    intro a _ b _ hab
    have := g.inj hab
    have : a.1 = b.1 := by omega
    exact Fin.ext this
  have hcard := Finset.card_le_card_of_injOn
    (fun k : Fin (used.length + 1) => g.gen (start + k.1))
    (fun a _ => List.mem_toFinset.mpr (hall a)) hinj
  simp only [Finset.card_univ, Fintype.card_fin] at hcard
  have hle : used.toFinset.card ≤ used.length := used.toFinset_card_le
  omega

/-- The index of the first stream element at or after `start` whose ID
is not in `used`: the determinised collision-retry loop
`while self.__dataDict.has_key(dataUUID): dataUUID = str(uuid.uuid4())`. -/
def UUIDGen.fresh (g : UUIDGen) (used : List String) (start : Nat) : Nat :=
  Nat.find (g.exists_fresh used start)

/-- Python dict assignment `d[k] = v` on an insertion-ordered
association list: overwrite in place if the key exists, else append. -/
def dictInsert {α : Type} (l : List (String × α)) (k : String) (v : α) :
    List (String × α) :=
  match l with
  | [] => [(k, v)]
  | p :: rest => if p.1 = k then (k, v) :: rest else p :: dictInsert rest k v

/-- The identity scan of `Figure.addData`:
`for d in dataDict.viewitems(): if d[1] is data: return d[0]`. -/
def scanData (l : List (String × NDArray)) (t : Nat) : Option String :=
  match l with
  | [] => none
  | d :: rest => if d.2.tok = t then some d.1 else scanData rest t

/-- The identity scan of `Figure.addMaterial`:
`for mat in materialDict.viewitems(): if mat[1] is m: return mat[1]`. -/
def scanMaterial (l : List (String × MaterialObj)) (t : Nat) : Option MaterialObj :=
  match l with
  | [] => none
  | d :: rest => if d.2.tok = t then some d.2 else scanMaterial rest t

/-- A `Scatter` render object: holds the registered `dataID` of its
vertex buffer and its material (`self.__properties['material']`). -/
structure ScatterObj where
  dataID : String
  material : MaterialObj
deriving DecidableEq, Repr

/-- A `Surface` render object: holds the registered `dataID` of its
vertex buffer and its material (`self.__properties['material']`). -/
structure SurfaceObj where
  dataID : String
  material : MaterialObj
deriving DecidableEq, Repr

/-- A render object owned by an `Axes`. -/
inductive RenderObject where
  | scatter (s : ScatterObj)
  | surface (s : SurfaceObj)
deriving DecidableEq, Repr

/-- An `Axes`: its ordered render objects and its `__properties`
(`size`, default `(800, 800)`, and `bgcolor`, default a fixed color).
The back-reference to the owning figure is implicit: an axes lives at
an index inside its figure's `axes` list and every axes operation is a
figure-state transformer. -/
structure Axes where
  renderObjects : List RenderObject
  size : Nat × Nat
  bgcolor : Color
deriving DecidableEq, Repr

/-- The `Figure` state: `ID`, the ordered `axes` list, the data-source
dictionary `dataDict`, the material dictionary `materialDict`; plus the
model-level fields: the uuid stream `g` with its cursor `pos`, the
trace `hookLog` of material tokens whose `addToFigure` hook has been
invoked, and `alloc`, the allocator for fresh default-material object
identities. -/
structure Figure where
  ID : String
  axes : List Axes
  dataDict : List (String × NDArray)
  materialDict : List (String × MaterialObj)
  g : UUIDGen
  pos : Nat
  hookLog : List Nat
  alloc : Nat

/-- `Figure.__init__`: `ID = str(uuid.uuid4())` (consuming the first
stream element), empty axes list and registries. -/
def Figure.init (g : UUIDGen) : Figure :=
  { ID := g.gen 0
    axes := []
    dataDict := []
    materialDict := []
    g := g
    pos := 1
    hookLog := []
    alloc := 0 }

/-- `Figure.ID` property setter: `self.__ID = value`. -/
def Figure.setID (fig : Figure) (value : String) : Figure :=
  { fig with ID := value }

/-- `Figure.data` property setter: always raises
`Exception('data source dictionary cannot be set')`; the state is
untouched. -/
def Figure.setData (fig : Figure) (_value : PyVal) : Except Err Unit × Figure :=
  (Except.error immutableViolation, fig)

/-- `Figure.addData(data)`: raise `TypeError` unless `data` is an
`ndarray`; scan the registry for the identical object and return its
key; otherwise draw fresh uuids until one misses the existing keys,
insert, and return the new key. -/
def Figure.addData (fig : Figure) (data : PyVal) : Except Err String × Figure :=
  match data with
  | PyVal.ndarray a =>
    match scanData fig.dataDict a.tok with
    | some k => (Except.ok k, fig)
    | none =>
      let n := fig.g.fresh (fig.dataDict.map Prod.fst) fig.pos
      let dataUUID := fig.g.gen n
      (Except.ok dataUUID,
        { fig with
            dataDict := dictInsert fig.dataDict dataUUID a
            pos := n + 1 })
  | _ => (Except.error (Err.typeError "Expecting Numpy ndarray object"), fig)

/-- `Figure.addMaterial(m)`: raise `TypeError` unless `m` is a
`Material`; scan the registry for the identical object and return the
stored material; otherwise invoke `m.addToFigure(self)` (recorded in
`hookLog`), insert under `m.ID`, and return `m`. -/
def Figure.addMaterial (fig : Figure) (m : PyVal) : Except Err MaterialObj × Figure :=
  match m with
  | PyVal.material mo =>
    match scanMaterial fig.materialDict mo.tok with
    | some stored => (Except.ok stored, fig)
    | none =>
      (Except.ok mo,
        { fig with
            hookLog := fig.hookLog ++ [mo.tok]
            materialDict := dictInsert fig.materialDict mo.ID mo })
  | _ => (Except.error (Err.typeError "Expecting Material object"), fig)

/-- `Figure.addAxes(**kwargs)`: construct an `Axes` bound to this
figure (with `size` defaulting to `(800, 800)` and `bgcolor` to the
default color), append it to the axes list, and return it. -/
def Figure.addAxes (fig : Figure) (size : Option (Nat × Nat))
    (bgcolor : Option Color) : Axes × Figure :=
  let ax : Axes :=
    { renderObjects := []
      size := size.getD (800, 800)
      bgcolor := bgcolor.getD Color.default }
  (ax, { fig with axes := fig.axes ++ [ax] })

/-- `Axes.data` property setter: always raises
`Exception('data source dictionary cannot be set')`. -/
def Axes.setData (fig : Figure) (_i : Nat) (_value : PyVal) : Except Err Unit × Figure :=
  (Except.error immutableViolation, fig)

/-- Replace the element at index `i` (no-op when out of range): used to
mutate the axes living at index `i` of the figure's axes list. -/
def updateAt {α : Type} : List α → Nat → (α → α) → List α
  | [], _, _ => []
  | a :: t, 0, f => f a :: t
  | a :: t, n + 1, f => a :: updateAt t n f

/-- `self.__renderObjects.append(obj)` on the axes at index `i`. -/
def Figure.appendRenderObject (fig : Figure) (i : Nat) (obj : RenderObject) : Figure :=
  { fig with
      axes := updateAt fig.axes i
        (fun ax => { ax with renderObjects := ax.renderObjects ++ [obj] }) }

/-- Modelled from the spec: `material.PointMaterial()` constructs a
fresh material object with a unique `ID`; object identity comes from
the figure-state allocator. -/
def PointMaterial.new (tok : Nat) : MaterialObj :=
  { tok := tok, ID := "PointMaterial-" ++ toString tok }

/-- Modelled from the spec: `material.WireframeMaterial()` constructs a
fresh material object with a unique `ID`. -/
def WireframeMaterial.new (tok : Nat) : MaterialObj :=
  { tok := tok, ID := "WireframeMaterial-" ++ toString tok }

/-- `Axes.scatter(vertex, **kwargs)` on the axes at index `i` of `fig`:
raise `TypeError` unless `vertex` is an ndarray, then run
`Scatter.__init__` — register the vertex buffer
(`self.__dataID = axes.addData(vertex)`), pop the `material` kwarg with
a fresh `PointMaterial()` default, register it via `axes.addMaterial`
(its raise propagates, leaving the already-registered vertex in the
data dictionary) — and finally append the new `Scatter` to the axes'
render objects.  The method body has no `return`, so the caller
receives `none` (Python `None`). -/
def Figure.scatter (fig : Figure) (i : Nat) (vertex : PyVal)
    (matArg : Option PyVal) : Except Err (Option ScatterObj) × Figure :=
  match vertex with
  | PyVal.ndarray a =>
    let r1 := fig.addData (PyVal.ndarray a)
    match r1.1 with
    | Except.error e => (Except.error e, r1.2)
    | Except.ok dataID =>
      let popped : PyVal × Figure :=
        match matArg with
        | some m => (m, r1.2)
        | none =>
          (PyVal.material (PointMaterial.new r1.2.alloc),
            { r1.2 with alloc := r1.2.alloc + 1 })
      match popped.1 with
      | PyVal.material mo =>
        let r2 := popped.2.addMaterial (PyVal.material mo)
        (Except.ok none,
          r2.2.appendRenderObject i (RenderObject.scatter ⟨dataID, mo⟩))
      | _ =>
        -- addMaterial raises on a non-material argument, after the
        -- vertex buffer has already been registered
        (Except.error (Err.typeError "Expecting Material object"), popped.2)
  | _ => (Except.error (Err.typeError "Expecting a Numpy NDArray object"), fig)

/-- `Axes.surface(vertex, **kwargs)` on the axes at index `i` of `fig`:
same shape as `scatter`, with a fresh `WireframeMaterial()` default and
a `Surface` render object; also returns `none`. -/
def Figure.surface (fig : Figure) (i : Nat) (vertex : PyVal)
    (matArg : Option PyVal) : Except Err (Option SurfaceObj) × Figure :=
  match vertex with
  | PyVal.ndarray a =>
    let r1 := fig.addData (PyVal.ndarray a)
    match r1.1 with
    | Except.error e => (Except.error e, r1.2)
    | Except.ok dataID =>
      let popped : PyVal × Figure :=
        match matArg with
        | some m => (m, r1.2)
        | none =>
          (PyVal.material (WireframeMaterial.new r1.2.alloc),
            { r1.2 with alloc := r1.2.alloc + 1 })
      match popped.1 with
      | PyVal.material mo =>
        let r2 := popped.2.addMaterial (PyVal.material mo)
        (Except.ok none,
          r2.2.appendRenderObject i (RenderObject.surface ⟨dataID, mo⟩))
      | _ =>
        (Except.error (Err.typeError "Expecting Material object"), popped.2)
  | _ => (Except.error (Err.typeError "Expecting a Numpy NDArray object"), fig)

/-- Modelled from the spec: the external collaborators used at render
time — the jinja2 templates of `_templateEnv`, the `numjis` array
encoder `toJson`, and the material `render` hook.  Each produces a text
fragment from the named substitution values the core passes it. -/
structure Templates where
  datasource : List (String × String) → String
  materials : List (String × String) → String
  figureT : String → String
  axesT : List String → (Nat × Nat) → Color → String
  scatterT : String → String → String
  surfaceT : String → String → String
  njToJson : NDArray → String
  materialRender : MaterialObj → String

/-- `Scatter.render()` / `Surface.render()`: render the variant
template with `vertex = dataID` and `material = material.ID`. -/
def RenderObject.render (T : Templates) : RenderObject → String
  | RenderObject.scatter s => T.scatterT s.dataID s.material.ID
  | RenderObject.surface s => T.surfaceT s.dataID s.material.ID

/-- `Axes.render()`: render each owned render object in order, then the
axes template over those fragments and this axes' properties. -/
def Axes.render (T : Templates) (ax : Axes) : String :=
  let JSrenderObj := ax.renderObjects.map (RenderObject.render T)
  String.join [T.axesT JSrenderObj ax.size ax.bgcolor]

/-- `Figure.render()`: the data-source fragment (all registered buffers
keyed by ID, encoded with `toJson`), then the materials fragment (all
registered materials keyed by ID), then the figure fragment keyed by
`ID`, then each axes' fragment in insertion order, joined. -/
def Figure.render (T : Templates) (fig : Figure) : String :=
  let dataDictJson := fig.dataDict.map (fun d => (d.1, T.njToJson d.2))
  let dataJS := T.datasource dataDictJson
  let materialDictJS := fig.materialDict.map (fun d => (d.1, T.materialRender d.2))
  let materialJS := T.materials materialDictJS
  String.join ([dataJS, materialJS, T.figureT fig.ID] ++
    fig.axes.map (Axes.render T))

/-- A sequence of `addData` calls, one per buffer, threading the figure
state and collecting the returned IDs (a raised `TypeError` would
contribute no ID, but `addData` on an ndarray never raises). -/
def Figure.addDataList (fig : Figure) : List NDArray → List String × Figure
  | [] => ([], fig)
  | a :: t =>
    let r := fig.addData (PyVal.ndarray a)
    let rest := Figure.addDataList r.2 t
    ((match r.1 with
      | Except.ok id => [id]
      | Except.error _ => []) ++ rest.1, rest.2)

/-- A registration call in a caller's session: `addData` or
`addMaterial` with an arbitrary argument. -/
inductive Op where
  | addData (v : PyVal)
  | addMaterial (v : PyVal)

/-- Run one registration call, keeping the post-state (also when the
call raises). -/
def Figure.runOp (fig : Figure) : Op → Figure
  | Op.addData v => (fig.addData v).2
  | Op.addMaterial v => (fig.addMaterial v).2

/-- Run a sequence of registration calls. -/
def Figure.runOps (fig : Figure) : List Op → Figure
  | [] => fig
  | op :: t => (fig.runOp op).runOps t

/-- A concrete uuid stream for evaluating the model on closed inputs:
the `n`-th candidate ID is the string of `n` letters `a`. -/
def unitGen : UUIDGen where
  gen n := String.mk (List.replicate n 'a')
  inj := by
    intro n m h
    have h2 : List.replicate n 'a' = List.replicate m 'a' := congrArg String.data h
    have h3 := congrArg List.length h2
    simpa using h3

/-- A freshly constructed figure over the concrete uuid stream. -/
def fig0 : Figure := Figure.init unitGen

/-- A concrete instantiation of the external render collaborators, for
evaluating the model on closed inputs. -/
def trivTemplates : Templates where
  datasource _ := "data"
  materials _ := "mat"
  figureT s := s
  axesT objs _ _ := String.join objs
  scatterT v m := v ++ m
  surfaceT v m := v ++ m
  njToJson a := toString a.val.length
  materialRender m := m.ID

/-- A fresh figure with two axes: the first with the default size, the
second with size `(400, 400)`. -/
def figTwoAxes : Figure :=
  ((fig0.addAxes none none).2.addAxes (some (400, 400)) none).2

/-!  Helper lemmas about the registry primitives. -/

theorem UUIDGen.le_fresh (g : UUIDGen) (used : List String) (start : Nat) :
    start ≤ g.fresh used start :=
  (Nat.find_spec (g.exists_fresh used start)).1

theorem UUIDGen.fresh_not_mem (g : UUIDGen) (used : List String) (start : Nat) :
    g.gen (g.fresh used start) ∉ used :=
  (Nat.find_spec (g.exists_fresh used start)).2

theorem UUIDGen.fresh_eq_start (g : UUIDGen) (used : List String) (start : Nat)
    (h : g.gen start ∉ used) : g.fresh used start = start :=
  le_antisymm (Nat.find_min' (g.exists_fresh used start) ⟨le_refl _, h⟩)
    (g.le_fresh used start)

theorem scanData_eq_none (l : List (String × NDArray)) (t : Nat)
    (h : ∀ p ∈ l, p.2.tok ≠ t) : scanData l t = none := by
  induction l with
  | nil => rfl
  | cons d rest ih =>
    simp only [scanData]
    rw [if_neg (h d (List.mem_cons_self d rest))]
    exact ih (fun p hp => h p (List.mem_cons_of_mem d hp))

theorem scanData_none_forall {l : List (String × NDArray)} {t : Nat}
    (h : scanData l t = none) : ∀ p ∈ l, p.2.tok ≠ t := by
  induction l with
  | nil => intro p hp; cases hp
  | cons d rest ih =>
    simp only [scanData] at h
    by_cases hd : d.2.tok = t
    · rw [if_pos hd] at h; cases h
    · rw [if_neg hd] at h
      intro p hp
      rcases List.mem_cons.mp hp with rfl | hp'
      · exact hd
      · exact ih h p hp'

theorem scanData_append_none {l : List (String × NDArray)}
    (l' : List (String × NDArray)) {t : Nat} (h : scanData l t = none) :
    scanData (l ++ l') t = scanData l' t := by
  induction l with
  | nil => simp only [List.nil_append]
  | cons d rest ih =>
    simp only [scanData] at h ⊢
    by_cases hd : d.2.tok = t
    · rw [if_pos hd] at h; cases h
    · rw [if_neg hd] at h ⊢
      exact ih h

theorem scanData_mem_keys {l : List (String × NDArray)} {t : Nat} {k : String}
    (h : scanData l t = some k) : k ∈ l.map Prod.fst := by
  induction l with
  | nil => cases h
  | cons d rest ih =>
    simp only [scanData] at h
    by_cases hd : d.2.tok = t
    · rw [if_pos hd] at h
      injection h with h1
      rw [← h1]
      exact List.mem_cons_self _ _
    · rw [if_neg hd] at h
      exact List.mem_cons_of_mem _ (ih h)

theorem scanMaterial_eq_none (l : List (String × MaterialObj)) (t : Nat)
    (h : ∀ p ∈ l, p.2.tok ≠ t) : scanMaterial l t = none := by
  induction l with
  | nil => rfl
  | cons d rest ih =>
    simp only [scanMaterial]
    rw [if_neg (h d (List.mem_cons_self d rest))]
    exact ih (fun p hp => h p (List.mem_cons_of_mem d hp))

theorem scanMaterial_append_none {l : List (String × MaterialObj)}
    (l' : List (String × MaterialObj)) {t : Nat} (h : scanMaterial l t = none) :
    scanMaterial (l ++ l') t = scanMaterial l' t := by
  induction l with
  | nil => simp only [List.nil_append]
  | cons d rest ih =>
    simp only [scanMaterial] at h ⊢
    by_cases hd : d.2.tok = t
    · rw [if_pos hd] at h; cases h
    · rw [if_neg hd] at h ⊢
      exact ih h

theorem dictInsert_not_mem {α : Type} (l : List (String × α)) (k : String) (v : α)
    (h : k ∉ l.map Prod.fst) : dictInsert l k v = l ++ [(k, v)] := by
  induction l with
  | nil => rfl
  | cons p rest ih =>
    simp only [List.map_cons, List.mem_cons] at h
    push_neg at h
    simp only [dictInsert]
    rw [if_neg (fun he => h.1 he.symm)]
    rw [ih h.2]
    simp only [List.cons_append]

theorem dictInsert_length_ge {α : Type} (l : List (String × α)) (k : String)
    (v : α) : l.length ≤ (dictInsert l k v).length := by
  induction l with
  | nil => simp [dictInsert]
  | cons p rest ih =>
    simp only [dictInsert]
    by_cases hp : p.1 = k
    · rw [if_pos hp]; simp
    · rw [if_neg hp]
      simpa using Nat.succ_le_succ ih

theorem dictInsert_keys_mono {α : Type} (l : List (String × α)) (k k' : String)
    (v : α) (h : k' ∈ l.map Prod.fst) :
    k' ∈ (dictInsert l k v).map Prod.fst := by
  induction l with
  | nil => cases h
  | cons p rest ih =>
    simp only [List.map_cons, List.mem_cons] at h
    simp only [dictInsert]
    by_cases hp : p.1 = k
    · rw [if_pos hp]
      rcases h with h | h
      · rw [hp] at h
        simp [h]
      · simp [h]
    · rw [if_neg hp]
      rcases h with h | h
      · simp [h]
      · simp [ih h]

theorem addData_found {fig : Figure} {a : NDArray} {k : String}
    (h : scanData fig.dataDict a.tok = some k) :
    fig.addData (PyVal.ndarray a) = (Except.ok k, fig) := by
  simp [Figure.addData, h]

theorem addData_new {fig : Figure} {a : NDArray}
    (h : scanData fig.dataDict a.tok = none) :
    fig.addData (PyVal.ndarray a) =
      (Except.ok (fig.g.gen (fig.g.fresh (fig.dataDict.map Prod.fst) fig.pos)),
        { fig with
            dataDict := fig.dataDict ++
              [(fig.g.gen (fig.g.fresh (fig.dataDict.map Prod.fst) fig.pos), a)]
            pos := fig.g.fresh (fig.dataDict.map Prod.fst) fig.pos + 1 }) := by
  simp only [Figure.addData, h]
  rw [dictInsert_not_mem _ _ _
    (fig.g.fresh_not_mem (fig.dataDict.map Prod.fst) fig.pos)]

theorem addData_spec (fig : Figure) (b : NDArray) :
    ∃ id1 fig1, fig.addData (PyVal.ndarray b) = (Except.ok id1, fig1) ∧
      scanData fig1.dataDict b.tok = some id1 ∧
      id1 ∈ fig1.dataDict.map Prod.fst ∧
      fig1.g = fig.g ∧
      (∀ t, t ≠ b.tok → scanData fig.dataDict t = none →
        scanData fig1.dataDict t = none) ∧
      (fig1.dataDict = fig.dataDict ∨
        fig1.dataDict = fig.dataDict ++ [(id1, b)]) := by
  cases hscan : scanData fig.dataDict b.tok with
  | some k =>
    exact ⟨k, fig, addData_found hscan, hscan, scanData_mem_keys hscan, rfl,
      fun t _ ht => ht, Or.inl rfl⟩
  | none =>
    refine ⟨_, _, addData_new hscan, ?_, ?_, rfl, ?_, Or.inr rfl⟩
    · rw [scanData_append_none _ hscan]
      simp [scanData]
    · simp
    · intro t htne htnone
      rw [scanData_append_none _ htnone]
      simp only [scanData]
      rw [if_neg (fun he => htne he.symm)]

/-- C1: identity-based deduplication of data buffers — a second
`addData` call with the same buffer object returns the first call's ID
and leaves the registry untouched, while a distinct but value-equal
buffer object gets a different ID and a fresh registry entry. -/
theorem C1_addData_dedup_by_identity (fig : Figure) (b b2 : NDArray)
    (hne : b2.tok ≠ b.tok) (_hval : b2.val = b.val)
    (hfresh : ∀ p ∈ fig.dataDict, p.2.tok ≠ b2.tok) :
    ∃ id1 fig1, fig.addData (PyVal.ndarray b) = (Except.ok id1, fig1) ∧
      fig1.addData (PyVal.ndarray b) = (Except.ok id1, fig1) ∧
      ∃ id2 fig2, fig1.addData (PyVal.ndarray b2) = (Except.ok id2, fig2) ∧
        id2 ≠ id1 ∧ fig2.dataDict.length = fig1.dataDict.length + 1 := by
  obtain ⟨id1, fig1, hcall, hscan1, hkey1, -, hpres, -⟩ := addData_spec fig b
  refine ⟨id1, fig1, hcall, addData_found hscan1, ?_⟩
  have hs2 : scanData fig1.dataDict b2.tok = none :=
    hpres b2.tok hne (scanData_eq_none _ _ hfresh)
  refine ⟨_, _, addData_new hs2, ?_, ?_⟩
  · intro he
    apply fig1.g.fresh_not_mem (fig1.dataDict.map Prod.fst) fig1.pos
    rw [he]
    exact hkey1
  · simp

/-- Witness for C1 at a fresh figure, the buffer with identity token 0
and contents `[5]`, and a distinct (token 1) but value-equal buffer. -/
theorem C1_witness :
    ((⟨1, [5]⟩ : NDArray).tok ≠ (⟨0, [5]⟩ : NDArray).tok) ∧
    ((⟨1, [5]⟩ : NDArray).val = (⟨0, [5]⟩ : NDArray).val) ∧
    (∀ p ∈ fig0.dataDict, p.2.tok ≠ (⟨1, [5]⟩ : NDArray).tok) ∧
    (∃ id1 fig1,
      fig0.addData (PyVal.ndarray ⟨0, [5]⟩) = (Except.ok id1, fig1) ∧
      fig1.addData (PyVal.ndarray ⟨0, [5]⟩) = (Except.ok id1, fig1) ∧
      ∃ id2 fig2,
        fig1.addData (PyVal.ndarray ⟨1, [5]⟩) = (Except.ok id2, fig2) ∧
        id2 ≠ id1 ∧ fig2.dataDict.length = fig1.dataDict.length + 1) :=
  ⟨by decide, by decide, by simp [fig0, Figure.init],
    C1_addData_dedup_by_identity fig0 ⟨0, [5]⟩ ⟨1, [5]⟩ (by decide) (by decide)
      (by simp [fig0, Figure.init])⟩

theorem scanMaterial_dictInsert (l : List (String × MaterialObj)) (k : String)
    (v : MaterialObj) (t : Nat) (h : ∀ p ∈ l, p.2.tok ≠ t) (hv : v.tok = t) :
    scanMaterial (dictInsert l k v) t = some v := by
  induction l with
  | nil => simp [dictInsert, scanMaterial, hv]
  | cons p rest ih =>
    simp only [dictInsert]
    by_cases hp : p.1 = k
    · rw [if_pos hp]
      simp [scanMaterial, hv]
    · rw [if_neg hp]
      simp only [scanMaterial]
      rw [if_neg (h p (List.mem_cons_self p rest))]
      exact ih (fun q hq => h q (List.mem_cons_of_mem p hq))

/-- C2: material deduplication and single binding — for a material
object not previously registered, the first `addMaterial` call returns
the material object itself after firing its figure-binding hook, the
second call returns the identical object without touching the state,
and after both calls the hook has fired exactly once. -/
theorem C2_addMaterial_dedup (fig : Figure) (m : MaterialObj)
    (hdict : ∀ p ∈ fig.materialDict, p.2.tok ≠ m.tok)
    (hlog : m.tok ∉ fig.hookLog) :
    ∃ fig1, fig.addMaterial (PyVal.material m) = (Except.ok m, fig1) ∧
      fig1.addMaterial (PyVal.material m) = (Except.ok m, fig1) ∧
      fig1.hookLog = fig.hookLog ++ [m.tok] ∧
      fig1.hookLog.count m.tok = 1 := by
  have hscan : scanMaterial fig.materialDict m.tok = none :=
    scanMaterial_eq_none _ _ hdict
  refine ⟨{ fig with
      hookLog := fig.hookLog ++ [m.tok]
      materialDict := dictInsert fig.materialDict m.ID m }, ?_, ?_, rfl, ?_⟩
  · simp only [Figure.addMaterial, hscan]
  · simp only [Figure.addMaterial]
    rw [scanMaterial_dictInsert _ _ _ _ hdict rfl]
  · rw [List.count_append]
    rw [List.count_eq_zero.mpr hlog]
    simp

/-- Witness for C2 at a fresh figure and the material with identity
token 7 and ID `"M"`. -/
theorem C2_witness :
    (∀ p ∈ fig0.materialDict, p.2.tok ≠ (⟨7, "M"⟩ : MaterialObj).tok) ∧
    ((⟨7, "M"⟩ : MaterialObj).tok ∉ fig0.hookLog) ∧
    (∃ fig1,
      fig0.addMaterial (PyVal.material ⟨7, "M"⟩) = (Except.ok ⟨7, "M"⟩, fig1) ∧
      fig1.addMaterial (PyVal.material ⟨7, "M"⟩) = (Except.ok ⟨7, "M"⟩, fig1) ∧
      fig1.hookLog = fig0.hookLog ++ [(⟨7, "M"⟩ : MaterialObj).tok] ∧
      fig1.hookLog.count (⟨7, "M"⟩ : MaterialObj).tok = 1) :=
  ⟨by simp [fig0, Figure.init], by simp [fig0, Figure.init],
    C2_addMaterial_dedup fig0 ⟨7, "M"⟩ (by simp [fig0, Figure.init])
      (by simp [fig0, Figure.init])⟩

theorem addMaterial_found {fig : Figure} {m stored : MaterialObj}
    (h : scanMaterial fig.materialDict m.tok = some stored) :
    fig.addMaterial (PyVal.material m) = (Except.ok stored, fig) := by
  simp [Figure.addMaterial, h]

theorem addMaterial_new {fig : Figure} {m : MaterialObj}
    (h : scanMaterial fig.materialDict m.tok = none) :
    fig.addMaterial (PyVal.material m) =
      (Except.ok m,
        { fig with
            hookLog := fig.hookLog ++ [m.tok]
            materialDict := dictInsert fig.materialDict m.ID m }) := by
  simp [Figure.addMaterial, h]

theorem addData_frame (fig : Figure) (v : PyVal) :
    (fig.addData v).2.ID = fig.ID ∧
    (fig.addData v).2.axes = fig.axes ∧
    (fig.addData v).2.materialDict = fig.materialDict ∧
    (fig.addData v).2.hookLog = fig.hookLog ∧
    (fig.addData v).2.alloc = fig.alloc ∧
    (fig.addData v).2.g = fig.g := by
  cases v with
  | ndarray a =>
    cases hscan : scanData fig.dataDict a.tok with
    | some k => rw [addData_found hscan]; exact ⟨rfl, rfl, rfl, rfl, rfl, rfl⟩
    | none => rw [addData_new hscan]; exact ⟨rfl, rfl, rfl, rfl, rfl, rfl⟩
  | material m => exact ⟨rfl, rfl, rfl, rfl, rfl, rfl⟩
  | str s => exact ⟨rfl, rfl, rfl, rfl, rfl, rfl⟩
  | int n => exact ⟨rfl, rfl, rfl, rfl, rfl, rfl⟩
  | pydict => exact ⟨rfl, rfl, rfl, rfl, rfl, rfl⟩
  | pynone => exact ⟨rfl, rfl, rfl, rfl, rfl, rfl⟩

theorem addMaterial_frame (fig : Figure) (v : PyVal) :
    (fig.addMaterial v).2.ID = fig.ID ∧
    (fig.addMaterial v).2.axes = fig.axes ∧
    (fig.addMaterial v).2.dataDict = fig.dataDict ∧
    (fig.addMaterial v).2.pos = fig.pos ∧
    (fig.addMaterial v).2.alloc = fig.alloc ∧
    (fig.addMaterial v).2.g = fig.g := by
  cases v with
  | material m =>
    cases hscan : scanMaterial fig.materialDict m.tok with
    | some s => rw [addMaterial_found hscan]; exact ⟨rfl, rfl, rfl, rfl, rfl, rfl⟩
    | none => rw [addMaterial_new hscan]; exact ⟨rfl, rfl, rfl, rfl, rfl, rfl⟩
  | ndarray a => exact ⟨rfl, rfl, rfl, rfl, rfl, rfl⟩
  | str s => exact ⟨rfl, rfl, rfl, rfl, rfl, rfl⟩
  | int n => exact ⟨rfl, rfl, rfl, rfl, rfl, rfl⟩
  | pydict => exact ⟨rfl, rfl, rfl, rfl, rfl, rfl⟩
  | pynone => exact ⟨rfl, rfl, rfl, rfl, rfl, rfl⟩

theorem scatter_ID (fig : Figure) (i : Nat) (v : PyVal) (mArg : Option PyVal) :
    (fig.scatter i v mArg).2.ID = fig.ID := by
  cases v with
  | ndarray a =>
    obtain ⟨id1, fig1, hcall, -, -, -, -, -⟩ := addData_spec fig a
    have hID1 : fig1.ID = fig.ID := by
      have := (addData_frame fig (PyVal.ndarray a)).1
      rwa [hcall] at this
    simp only [Figure.scatter, hcall]
    cases mArg with
    | none =>
      have := (addMaterial_frame { fig1 with alloc := fig1.alloc + 1 }
        (PyVal.material (PointMaterial.new fig1.alloc))).1
      simpa [Figure.appendRenderObject, this] using hID1
    | some m =>
      cases m with
      | material mo =>
        have := (addMaterial_frame fig1 (PyVal.material mo)).1
        simpa [Figure.appendRenderObject, this] using hID1
      | ndarray b => exact hID1
      | str s => exact hID1
      | int n => exact hID1
      | pydict => exact hID1
      | pynone => exact hID1
  | material m => rfl
  | str s => rfl
  | int n => rfl
  | pydict => rfl
  | pynone => rfl

theorem surface_ID (fig : Figure) (i : Nat) (v : PyVal) (mArg : Option PyVal) :
    (fig.surface i v mArg).2.ID = fig.ID := by
  cases v with
  | ndarray a =>
    obtain ⟨id1, fig1, hcall, -, -, -, -, -⟩ := addData_spec fig a
    have hID1 : fig1.ID = fig.ID := by
      have := (addData_frame fig (PyVal.ndarray a)).1
      rwa [hcall] at this
    simp only [Figure.surface, hcall]
    cases mArg with
    | none =>
      have := (addMaterial_frame { fig1 with alloc := fig1.alloc + 1 }
        (PyVal.material (WireframeMaterial.new fig1.alloc))).1
      simpa [Figure.appendRenderObject, this] using hID1
    | some m =>
      cases m with
      | material mo =>
        have := (addMaterial_frame fig1 (PyVal.material mo)).1
        simpa [Figure.appendRenderObject, this] using hID1
      | ndarray b => exact hID1
      | str s => exact hID1
      | int n => exact hID1
      | pydict => exact hID1
      | pynone => exact hID1
  | material m => rfl
  | str s => rfl
  | int n => rfl
  | pydict => rfl
  | pynone => rfl

/-- C4 counterexample: assigning to the `ID` property of a freshly
constructed figure replaces its id — the `ID` setter
(`self.__ID = value`) is a plain pass-through, so the id is not
immutable. -/
theorem C4_counterexample : (fig0.setID "x").ID ≠ fig0.ID := by
  show "x" ≠ fig0.ID
  simp only [fig0, Figure.init, unitGen]
  decide

/-- C4 (amended): the figure's id is assigned at construction, and
`addData`, `addMaterial`, `addAxes`, `scatter`, `surface` and the
`data` setter all leave it unchanged; assignment to the `ID` property,
however, replaces the id with the assigned value. -/
theorem C4_ID_assignment (g : UUIDGen) (fig : Figure) (v w : PyVal) (i : Nat)
    (mArg : Option PyVal) (size : Option (Nat × Nat)) (bg : Option Color)
    (s : String) :
    (Figure.init g).ID = g.gen 0 ∧
    (fig.addData v).2.ID = fig.ID ∧
    (fig.addMaterial w).2.ID = fig.ID ∧
    (fig.addAxes size bg).2.ID = fig.ID ∧
    (fig.scatter i v mArg).2.ID = fig.ID ∧
    (fig.surface i v mArg).2.ID = fig.ID ∧
    (fig.setData v).2.ID = fig.ID ∧
    (fig.setID s).ID = s :=
  ⟨rfl, (addData_frame fig v).1, (addMaterial_frame fig w).1, rfl,
    scatter_ID fig i v mArg, surface_ID fig i v mArg, rfl, rfl⟩

/-- C7: type rejection — `addData` raises
`TypeError('Expecting Numpy ndarray object')` for every argument that
is not an ndarray, `addMaterial` raises
`TypeError('Expecting Material object')` for every argument that is
not a material, and `scatter`/`surface` raise
`TypeError('Expecting a Numpy NDArray object')` for every vertex that
is not an ndarray; each raise happens at the top of the call, with the
state untouched. -/
theorem C7_type_rejection (fig : Figure) (v : PyVal) (i : Nat)
    (mArg : Option PyVal) :
    ((∀ a : NDArray, v ≠ PyVal.ndarray a) →
      fig.addData v =
        (Except.error (Err.typeError "Expecting Numpy ndarray object"), fig)) ∧
    ((∀ m : MaterialObj, v ≠ PyVal.material m) →
      fig.addMaterial v =
        (Except.error (Err.typeError "Expecting Material object"), fig)) ∧
    ((∀ a : NDArray, v ≠ PyVal.ndarray a) →
      fig.scatter i v mArg =
        (Except.error (Err.typeError "Expecting a Numpy NDArray object"), fig)) ∧
    ((∀ a : NDArray, v ≠ PyVal.ndarray a) →
      fig.surface i v mArg =
        (Except.error (Err.typeError "Expecting a Numpy NDArray object"), fig)) := by
  refine ⟨?_, ?_, ?_, ?_⟩
  · intro h
    cases v with
    | ndarray a => exact absurd rfl (h a)
    | material m => rfl
    | str s => rfl
    | int n => rfl
    | pydict => rfl
    | pynone => rfl
  · intro h
    cases v with
    | material m => exact absurd rfl (h m)
    | ndarray a => rfl
    | str s => rfl
    | int n => rfl
    | pydict => rfl
    | pynone => rfl
  · intro h
    cases v with
    | ndarray a => exact absurd rfl (h a)
    | material m => rfl
    | str s => rfl
    | int n => rfl
    | pydict => rfl
    | pynone => rfl
  · intro h
    cases v with
    | ndarray a => exact absurd rfl (h a)
    | material m => rfl
    | str s => rfl
    | int n => rfl
    | pydict => rfl
    | pynone => rfl

/-- Witness for C7 at a fresh figure and the string argument
`"not an array"`. -/
theorem C7_witness :
    (∀ a : NDArray, PyVal.str "not an array" ≠ PyVal.ndarray a) ∧
    (∀ m : MaterialObj, PyVal.str "not an array" ≠ PyVal.material m) ∧
    fig0.addData (PyVal.str "not an array") =
      (Except.error (Err.typeError "Expecting Numpy ndarray object"), fig0) ∧
    fig0.addMaterial (PyVal.str "not an array") =
      (Except.error (Err.typeError "Expecting Material object"), fig0) ∧
    fig0.scatter 0 (PyVal.str "not an array") none =
      (Except.error (Err.typeError "Expecting a Numpy NDArray object"), fig0) ∧
    fig0.surface 0 (PyVal.str "not an array") none =
      (Except.error (Err.typeError "Expecting a Numpy NDArray object"), fig0) := by
  have h : ∀ a : NDArray, PyVal.str "not an array" ≠ PyVal.ndarray a :=
    fun a he => by cases he
  have hm : ∀ m : MaterialObj, PyVal.str "not an array" ≠ PyVal.material m :=
    fun m he => by cases he
  obtain ⟨h1, h2, h3, h4⟩ := C7_type_rejection fig0 (PyVal.str "not an array") 0 none
  exact ⟨h, hm, h1 h, h2 hm, h3 h, h4 h⟩

/-- C8: the read-only `data` property — assignment to `figure.data` or
`axes.data` raises `Exception('data source dictionary cannot be set')`
and leaves the figure state (in particular the data registry)
untouched. -/
theorem C8_data_setter_immutable (fig : Figure) (v w : PyVal) (i : Nat) :
    fig.setData v = (Except.error immutableViolation, fig) ∧
    Axes.setData fig i w = (Except.error immutableViolation, fig) ∧
    (fig.setData v).2.dataDict = fig.dataDict ∧
    (Axes.setData fig i w).2.dataDict = fig.dataDict :=
  ⟨rfl, rfl, rfl, rfl⟩

theorem scatter_bad_material (fig : Figure) (i : Nat) (a : NDArray) (mv : PyVal)
    (hm : ∀ m : MaterialObj, mv ≠ PyVal.material m) :
    fig.scatter i (PyVal.ndarray a) (some mv) =
      (Except.error (Err.typeError "Expecting Material object"),
        (fig.addData (PyVal.ndarray a)).2) := by
  obtain ⟨id1, fig1, hcall, -, -, -, -, -⟩ := addData_spec fig a
  simp only [Figure.scatter, hcall]

theorem surface_bad_material (fig : Figure) (i : Nat) (a : NDArray) (mv : PyVal)
    (hm : ∀ m : MaterialObj, mv ≠ PyVal.material m) :
    fig.surface i (PyVal.ndarray a) (some mv) =
      (Except.error (Err.typeError "Expecting Material object"),
        (fig.addData (PyVal.ndarray a)).2) := by
  obtain ⟨id1, fig1, hcall, -, -, -, -, -⟩ := addData_spec fig a
  simp only [Figure.surface, hcall]

/-- C3 counterexample: on a fresh figure with one axes,
`scatter(vertex, material="bad")` with an ndarray vertex raises, yet
the figure's data registry has changed — the vertex buffer was
registered before the material type check fired, so the call is not
all-or-nothing. -/
theorem C3_counterexample :
    ∃ e, (((fig0.addAxes none none).2).scatter 0 (PyVal.ndarray ⟨0, [5]⟩)
        (some (PyVal.str "bad"))).1 = Except.error e ∧
      (((fig0.addAxes none none).2).scatter 0 (PyVal.ndarray ⟨0, [5]⟩)
        (some (PyVal.str "bad"))).2.dataDict ≠
        ((fig0.addAxes none none).2).dataDict := by
  have hm : ∀ m : MaterialObj, PyVal.str "bad" ≠ PyVal.material m :=
    fun m he => by cases he
  have hbad := scatter_bad_material ((fig0.addAxes none none).2) 0 ⟨0, [5]⟩
    (PyVal.str "bad") hm
  refine ⟨Err.typeError "Expecting Material object", ?_, ?_⟩
  · rw [hbad]
  · rw [hbad]
    have hscan : scanData ((fig0.addAxes none none).2).dataDict
        (⟨0, [5]⟩ : NDArray).tok = none := rfl
    rw [addData_new hscan]
    intro he
    have hlen := congrArg List.length he
    rw [List.length_append] at hlen
    simp at hlen

/-- C3 (amended): a failed `addData` or `addMaterial` call and a
`scatter`/`surface` call that fails the vertex type check leave the
figure state unmodified; but a `scatter`/`surface` call whose vertex is
an ndarray and whose `material` argument is not a material raises only
after the vertex has been registered: the post-state is exactly the
state after `addData(vertex)` — the data registry may have gained the
vertex entry, while the axes, material registry and binding-hook trace
are unchanged. -/
theorem C3_atomicity (fig : Figure) (i : Nat) (v : PyVal) (a : NDArray)
    (mv : PyVal) (mArg : Option PyVal) :
    ((∀ b : NDArray, v ≠ PyVal.ndarray b) → (fig.addData v).2 = fig) ∧
    ((∀ m : MaterialObj, v ≠ PyVal.material m) → (fig.addMaterial v).2 = fig) ∧
    ((∀ b : NDArray, v ≠ PyVal.ndarray b) →
      (fig.scatter i v mArg).2 = fig ∧ (fig.surface i v mArg).2 = fig) ∧
    ((∀ m : MaterialObj, mv ≠ PyVal.material m) →
      fig.scatter i (PyVal.ndarray a) (some mv) =
        (Except.error (Err.typeError "Expecting Material object"),
          (fig.addData (PyVal.ndarray a)).2) ∧
      fig.surface i (PyVal.ndarray a) (some mv) =
        (Except.error (Err.typeError "Expecting Material object"),
          (fig.addData (PyVal.ndarray a)).2) ∧
      (fig.addData (PyVal.ndarray a)).2.materialDict = fig.materialDict ∧
      (fig.addData (PyVal.ndarray a)).2.axes = fig.axes ∧
      (fig.addData (PyVal.ndarray a)).2.hookLog = fig.hookLog) := by
  refine ⟨?_, ?_, ?_, ?_⟩
  · intro h
    cases v with
    | ndarray b => exact absurd rfl (h b)
    | material m => rfl
    | str s => rfl
    | int n => rfl
    | pydict => rfl
    | pynone => rfl
  · intro h
    cases v with
    | material m => exact absurd rfl (h m)
    | ndarray b => rfl
    | str s => rfl
    | int n => rfl
    | pydict => rfl
    | pynone => rfl
  · intro h
    cases v with
    | ndarray b => exact absurd rfl (h b)
    | material m => exact ⟨rfl, rfl⟩
    | str s => exact ⟨rfl, rfl⟩
    | int n => exact ⟨rfl, rfl⟩
    | pydict => exact ⟨rfl, rfl⟩
    | pynone => exact ⟨rfl, rfl⟩
  · intro h
    obtain ⟨-, hax, hmat, hlog, -, -⟩ := addData_frame fig (PyVal.ndarray a)
    exact ⟨scatter_bad_material fig i a mv h, surface_bad_material fig i a mv h,
      hmat, hax, hlog⟩

/-- Witness for C3 at a fresh figure, index 0, the token-0 buffer and
the non-material argument `"bad"`. -/
theorem C3_witness :
    (∀ b : NDArray, PyVal.pynone ≠ PyVal.ndarray b) ∧
    (∀ m : MaterialObj, PyVal.str "bad" ≠ PyVal.material m) ∧
    (fig0.addData PyVal.pynone).2 = fig0 ∧
    (fig0.scatter 0 (PyVal.ndarray ⟨0, [5]⟩) (some (PyVal.str "bad"))).2.materialDict
      = fig0.materialDict := by
  have hb : ∀ b : NDArray, PyVal.pynone ≠ PyVal.ndarray b := fun b he => by cases he
  have hm : ∀ m : MaterialObj, PyVal.str "bad" ≠ PyVal.material m :=
    fun m he => by cases he
  obtain ⟨h1, -, -, h4⟩ := C3_atomicity fig0 0 PyVal.pynone ⟨0, [5]⟩
    (PyVal.str "bad") none
  obtain ⟨hs, -, hmat, -, -⟩ := h4 hm
  refine ⟨hb, hm, h1 hb, ?_⟩
  rw [hs]
  exact hmat

theorem sjoin_cons (s : String) (l : List String) :
    String.join (s :: l) = s ++ String.join l := by
  apply String.ext
  simp

theorem sjoin_split_one (l : List String) (j : Nat) (s : String)
    (hj : l.get? j = some s) : ∃ q r, String.join l = q ++ s ++ r := by
  induction l generalizing j with
  | nil => cases hj
  | cons a t ih =>
    cases j with
    | zero =>
      rw [List.get?_cons_zero] at hj
      injection hj with h
      subst h
      exact ⟨"", String.join t, by rw [sjoin_cons, String.empty_append]⟩
    | succ j' =>
      rw [List.get?_cons_succ] at hj
      obtain ⟨q, r, hqr⟩ := ih j' hj
      refine ⟨a ++ q, r, ?_⟩
      rw [sjoin_cons, hqr]
      simp [String.append_assoc]

theorem sjoin_split_two (l : List String) (i j : Nat) (s1 s2 : String)
    (hij : i < j) (h1 : l.get? i = some s1) (h2 : l.get? j = some s2) :
    ∃ p q r, String.join l = p ++ s1 ++ q ++ s2 ++ r := by
  induction l generalizing i j with
  | nil => cases h1
  | cons a t ih =>
    cases i with
    | zero =>
      rw [List.get?_cons_zero] at h1
      injection h1 with h
      subst h
      cases j with
      | zero => omega
      | succ j' =>
        rw [List.get?_cons_succ] at h2
        obtain ⟨q, r, hqr⟩ := sjoin_split_one t j' s2 h2
        refine ⟨"", q, r, ?_⟩
        rw [sjoin_cons, hqr]
        simp [String.append_assoc, String.empty_append]
    | succ i' =>
      cases j with
      | zero => omega
      | succ j' =>
        rw [List.get?_cons_succ] at h1
        rw [List.get?_cons_succ] at h2
        obtain ⟨p, q, r, hpqr⟩ := ih i' j' (by omega) h1 h2
        refine ⟨a ++ p, q, r, ?_⟩
        rw [sjoin_cons, hpqr]
        simp [String.append_assoc]

/-- C5: render ordering — `Figure.render()` is the concatenation, in
order, of the data-sources fragment (all registered buffers keyed by
ID), the materials fragment (all registered materials keyed by ID), the
figure fragment, and each axes' fragment in insertion order; in
particular the fragment of an axes added earlier occurs strictly before
that of an axes added later. -/
theorem C5_render_ordering (T : Templates) (fig : Figure) (i j : Nat)
    (A1 A2 : Axes) (hij : i < j) (h1 : fig.axes.get? i = some A1)
    (h2 : fig.axes.get? j = some A2) :
    fig.render T =
      T.datasource (fig.dataDict.map (fun d => (d.1, T.njToJson d.2))) ++
      (T.materials (fig.materialDict.map (fun d => (d.1, T.materialRender d.2))) ++
      (T.figureT fig.ID ++ String.join (fig.axes.map (Axes.render T)))) ∧
    ∃ p q r, fig.render T =
      p ++ Axes.render T A1 ++ q ++ Axes.render T A2 ++ r := by
  have hren : fig.render T =
      T.datasource (fig.dataDict.map (fun d => (d.1, T.njToJson d.2))) ++
      (T.materials (fig.materialDict.map (fun d => (d.1, T.materialRender d.2))) ++
      (T.figureT fig.ID ++ String.join (fig.axes.map (Axes.render T)))) := by
    simp only [Figure.render, List.cons_append, List.nil_append]
    rw [sjoin_cons, sjoin_cons, sjoin_cons]
  refine ⟨hren, ?_⟩
  have hm1 : (fig.axes.map (Axes.render T)).get? i = some (Axes.render T A1) := by
    rw [List.get?_map, h1]
    rfl
  have hm2 : (fig.axes.map (Axes.render T)).get? j = some (Axes.render T A2) := by
    rw [List.get?_map, h2]
    rfl
  obtain ⟨p, q, r, hpqr⟩ :=
    sjoin_split_two (fig.axes.map (Axes.render T)) i j _ _ hij hm1 hm2
  refine ⟨T.datasource (fig.dataDict.map (fun d => (d.1, T.njToJson d.2))) ++
    (T.materials (fig.materialDict.map (fun d => (d.1, T.materialRender d.2))) ++
    (T.figureT fig.ID ++ p)), q, r, ?_⟩
  rw [hren, hpqr]
  simp [String.append_assoc]

/-- Witness for C5 at a figure with two axes (default-size axes added
first, a `(400, 400)` axes added second) and concrete render
collaborators. -/
theorem C5_witness :
    0 < 1 ∧
    figTwoAxes.axes.get? 0 = some ⟨[], (800, 800), Color.default⟩ ∧
    figTwoAxes.axes.get? 1 = some ⟨[], (400, 400), Color.default⟩ ∧
    (figTwoAxes.render trivTemplates =
      trivTemplates.datasource
        (figTwoAxes.dataDict.map (fun d => (d.1, trivTemplates.njToJson d.2))) ++
      (trivTemplates.materials
        (figTwoAxes.materialDict.map (fun d => (d.1, trivTemplates.materialRender d.2))) ++
      (trivTemplates.figureT figTwoAxes.ID ++
        String.join (figTwoAxes.axes.map (Axes.render trivTemplates)))) ∧
    ∃ p q r, figTwoAxes.render trivTemplates =
      p ++ Axes.render trivTemplates ⟨[], (800, 800), Color.default⟩ ++ q ++
        Axes.render trivTemplates ⟨[], (400, 400), Color.default⟩ ++ r) :=
  ⟨by decide, by rfl, by rfl,
    C5_render_ordering trivTemplates figTwoAxes 0 1
      ⟨[], (800, 800), Color.default⟩ ⟨[], (400, 400), Color.default⟩
      (by decide) (by rfl) (by rfl)⟩

theorem updateAt_get? {α : Type} (l : List α) (i : Nat) (f : α → α) :
    (updateAt l i f).get? i = (l.get? i).map f := by
  induction l generalizing i with
  | nil => cases i <;> rfl
  | cons a t ih =>
    cases i with
    | zero => rfl
    | succ n =>
      simp only [updateAt, List.get?_cons_succ]
      exact ih n

theorem appendRenderObject_get? (fig : Figure) (i : Nat) (obj : RenderObject) :
    (fig.appendRenderObject i obj).axes.get? i =
      (fig.axes.get? i).map
        (fun ax => { ax with renderObjects := ax.renderObjects ++ [obj] }) := by
  simp only [Figure.appendRenderObject]
  exact updateAt_get? fig.axes i _

theorem scatter_appends (fig : Figure) (i : Nat) (a : NDArray)
    (mArg : Option PyVal)
    (hm : mArg = none ∨ ∃ mo : MaterialObj, mArg = some (PyVal.material mo))
    (ax : Axes) (hax : fig.axes.get? i = some ax) :
    (fig.scatter i (PyVal.ndarray a) mArg).1 = Except.ok none ∧
    ∃ obj ax2, (fig.scatter i (PyVal.ndarray a) mArg).2.axes.get? i = some ax2 ∧
      ax2.renderObjects = ax.renderObjects ++ [obj] := by
  obtain ⟨id1, fig1, hcall, -, -, -, -, -⟩ := addData_spec fig a
  have hax1 : fig1.axes = fig.axes := by
    have := (addData_frame fig (PyVal.ndarray a)).2.1
    rwa [hcall] at this
  rcases hm with rfl | ⟨mo, rfl⟩
  · simp only [Figure.scatter, hcall]
    have hax2 : ((({ fig1 with alloc := fig1.alloc + 1 } : Figure).addMaterial
        (PyVal.material (PointMaterial.new fig1.alloc))).2).axes = fig.axes := by
      have := (addMaterial_frame { fig1 with alloc := fig1.alloc + 1 }
        (PyVal.material (PointMaterial.new fig1.alloc))).2.1
      rw [this]
      exact hax1
    refine ⟨trivial, RenderObject.scatter ⟨id1, PointMaterial.new fig1.alloc⟩,
      { ax with renderObjects := ax.renderObjects ++
          [RenderObject.scatter ⟨id1, PointMaterial.new fig1.alloc⟩] }, ?_, rfl⟩
    rw [appendRenderObject_get?, hax2, hax]
    rfl
  · simp only [Figure.scatter, hcall]
    have hax2 : ((fig1.addMaterial (PyVal.material mo)).2).axes = fig.axes := by
      have := (addMaterial_frame fig1 (PyVal.material mo)).2.1
      rw [this]
      exact hax1
    refine ⟨trivial, RenderObject.scatter ⟨id1, mo⟩,
      { ax with renderObjects := ax.renderObjects ++
          [RenderObject.scatter ⟨id1, mo⟩] }, ?_, rfl⟩
    rw [appendRenderObject_get?, hax2, hax]
    rfl

theorem surface_appends (fig : Figure) (i : Nat) (a : NDArray)
    (mArg : Option PyVal)
    (hm : mArg = none ∨ ∃ mo : MaterialObj, mArg = some (PyVal.material mo))
    (ax : Axes) (hax : fig.axes.get? i = some ax) :
    (fig.surface i (PyVal.ndarray a) mArg).1 = Except.ok none ∧
    ∃ obj ax2, (fig.surface i (PyVal.ndarray a) mArg).2.axes.get? i = some ax2 ∧
      ax2.renderObjects = ax.renderObjects ++ [obj] := by
  obtain ⟨id1, fig1, hcall, -, -, -, -, -⟩ := addData_spec fig a
  have hax1 : fig1.axes = fig.axes := by
    have := (addData_frame fig (PyVal.ndarray a)).2.1
    rwa [hcall] at this
  rcases hm with rfl | ⟨mo, rfl⟩
  · simp only [Figure.surface, hcall]
    have hax2 : ((({ fig1 with alloc := fig1.alloc + 1 } : Figure).addMaterial
        (PyVal.material (WireframeMaterial.new fig1.alloc))).2).axes = fig.axes := by
      have := (addMaterial_frame { fig1 with alloc := fig1.alloc + 1 }
        (PyVal.material (WireframeMaterial.new fig1.alloc))).2.1
      rw [this]
      exact hax1
    refine ⟨trivial, RenderObject.surface ⟨id1, WireframeMaterial.new fig1.alloc⟩,
      { ax with renderObjects := ax.renderObjects ++
          [RenderObject.surface ⟨id1, WireframeMaterial.new fig1.alloc⟩] }, ?_, rfl⟩
    rw [appendRenderObject_get?, hax2, hax]
    rfl
  · simp only [Figure.surface, hcall]
    have hax2 : ((fig1.addMaterial (PyVal.material mo)).2).axes = fig.axes := by
      have := (addMaterial_frame fig1 (PyVal.material mo)).2.1
      rw [this]
      exact hax1
    refine ⟨trivial, RenderObject.surface ⟨id1, mo⟩,
      { ax with renderObjects := ax.renderObjects ++
          [RenderObject.surface ⟨id1, mo⟩] }, ?_, rfl⟩
    rw [appendRenderObject_get?, hax2, hax]
    rfl

/-- C10: the factory methods `Axes.scatter` and `Axes.surface` append
the constructed render object to the axes but return `None` — the
caller gets no reference to the created object — whereas
`Figure.addAxes` returns the newly constructed axes (appended at the
end of the axes list). -/
theorem C10_factory_methods (fig : Figure) (i : Nat) (a : NDArray)
    (mArg : Option PyVal) (ax : Axes)
    (hm : mArg = none ∨ ∃ mo : MaterialObj, mArg = some (PyVal.material mo))
    (hax : fig.axes.get? i = some ax)
    (size : Option (Nat × Nat)) (bg : Option Color) :
    ((fig.scatter i (PyVal.ndarray a) mArg).1 = Except.ok none ∧
      ∃ obj ax2, (fig.scatter i (PyVal.ndarray a) mArg).2.axes.get? i = some ax2 ∧
        ax2.renderObjects = ax.renderObjects ++ [obj]) ∧
    ((fig.surface i (PyVal.ndarray a) mArg).1 = Except.ok none ∧
      ∃ obj ax2, (fig.surface i (PyVal.ndarray a) mArg).2.axes.get? i = some ax2 ∧
        ax2.renderObjects = ax.renderObjects ++ [obj]) ∧
    (fig.addAxes size bg).2.axes = fig.axes ++ [(fig.addAxes size bg).1] :=
  ⟨scatter_appends fig i a mArg hm ax hax,
    surface_appends fig i a mArg hm ax hax, rfl⟩

/-- Witness for C10 at a figure with two axes, index 0, the token-0
buffer and an explicit material argument. -/
theorem C10_witness :
    (some (PyVal.material ⟨3, "m3"⟩) = none ∨
      ∃ mo : MaterialObj, some (PyVal.material ⟨3, "m3"⟩) = some (PyVal.material mo)) ∧
    figTwoAxes.axes.get? 0 = some ⟨[], (800, 800), Color.default⟩ ∧
    (((figTwoAxes.scatter 0 (PyVal.ndarray ⟨0, [5]⟩)
        (some (PyVal.material ⟨3, "m3"⟩))).1 = Except.ok none ∧
      ∃ obj ax2, (figTwoAxes.scatter 0 (PyVal.ndarray ⟨0, [5]⟩)
          (some (PyVal.material ⟨3, "m3"⟩))).2.axes.get? 0 = some ax2 ∧
        ax2.renderObjects =
          (⟨[], (800, 800), Color.default⟩ : Axes).renderObjects ++ [obj]) ∧
    ((figTwoAxes.surface 0 (PyVal.ndarray ⟨0, [5]⟩)
        (some (PyVal.material ⟨3, "m3"⟩))).1 = Except.ok none ∧
      ∃ obj ax2, (figTwoAxes.surface 0 (PyVal.ndarray ⟨0, [5]⟩)
          (some (PyVal.material ⟨3, "m3"⟩))).2.axes.get? 0 = some ax2 ∧
        ax2.renderObjects =
          (⟨[], (800, 800), Color.default⟩ : Axes).renderObjects ++ [obj]) ∧
    (figTwoAxes.addAxes none none).2.axes =
      figTwoAxes.axes ++ [(figTwoAxes.addAxes none none).1]) :=
  ⟨Or.inr ⟨⟨3, "m3"⟩, rfl⟩, by rfl,
    C10_factory_methods figTwoAxes 0 ⟨0, [5]⟩ (some (PyVal.material ⟨3, "m3"⟩))
      ⟨[], (800, 800), Color.default⟩ (Or.inr ⟨⟨3, "m3"⟩, rfl⟩) (by rfl) none none⟩

theorem runOp_mono (fig : Figure) (op : Op) :
    fig.dataDict.length ≤ (fig.runOp op).dataDict.length ∧
    fig.materialDict.length ≤ (fig.runOp op).materialDict.length ∧
    (∀ k ∈ fig.dataDict.map Prod.fst, k ∈ (fig.runOp op).dataDict.map Prod.fst) ∧
    (∀ k ∈ fig.materialDict.map Prod.fst,
      k ∈ (fig.runOp op).materialDict.map Prod.fst) := by
  cases op with
  | addData v =>
    simp only [Figure.runOp]
    cases v with
    | ndarray a =>
      cases hscan : scanData fig.dataDict a.tok with
      | some k =>
        rw [addData_found hscan]
        exact ⟨le_refl _, le_refl _, fun k hk => hk, fun k hk => hk⟩
      | none =>
        rw [addData_new hscan]
        refine ⟨?_, le_refl _, ?_, fun k hk => hk⟩
        · simp
        · intro k hk
          simp only [List.map_append]
          exact List.mem_append_left _ hk
    | material m => exact ⟨le_refl _, le_refl _, fun k hk => hk, fun k hk => hk⟩
    | str s => exact ⟨le_refl _, le_refl _, fun k hk => hk, fun k hk => hk⟩
    | int n => exact ⟨le_refl _, le_refl _, fun k hk => hk, fun k hk => hk⟩
    | pydict => exact ⟨le_refl _, le_refl _, fun k hk => hk, fun k hk => hk⟩
    | pynone => exact ⟨le_refl _, le_refl _, fun k hk => hk, fun k hk => hk⟩
  | addMaterial v =>
    simp only [Figure.runOp]
    cases v with
    | material m =>
      cases hscan : scanMaterial fig.materialDict m.tok with
      | some s =>
        rw [addMaterial_found hscan]
        exact ⟨le_refl _, le_refl _, fun k hk => hk, fun k hk => hk⟩
      | none =>
        rw [addMaterial_new hscan]
        exact ⟨le_refl _, dictInsert_length_ge _ _ _, fun k hk => hk,
          fun k hk => dictInsert_keys_mono _ _ _ _ hk⟩
    | ndarray a => exact ⟨le_refl _, le_refl _, fun k hk => hk, fun k hk => hk⟩
    | str s => exact ⟨le_refl _, le_refl _, fun k hk => hk, fun k hk => hk⟩
    | int n => exact ⟨le_refl _, le_refl _, fun k hk => hk, fun k hk => hk⟩
    | pydict => exact ⟨le_refl _, le_refl _, fun k hk => hk, fun k hk => hk⟩
    | pynone => exact ⟨le_refl _, le_refl _, fun k hk => hk, fun k hk => hk⟩

/-- C9: registry monotonicity — over any sequence of `addData` and
`addMaterial` calls (successful or raising, since a raising call leaves
the state untouched), the sizes of the data and material registries
never decrease and no registry key is ever removed. -/
theorem C9_registry_monotonic (fig : Figure) (ops : List Op) :
    fig.dataDict.length ≤ (fig.runOps ops).dataDict.length ∧
    fig.materialDict.length ≤ (fig.runOps ops).materialDict.length ∧
    (∀ k ∈ fig.dataDict.map Prod.fst, k ∈ (fig.runOps ops).dataDict.map Prod.fst) ∧
    (∀ k ∈ fig.materialDict.map Prod.fst,
      k ∈ (fig.runOps ops).materialDict.map Prod.fst) := by
  induction ops generalizing fig with
  | nil => exact ⟨le_refl _, le_refl _, fun k hk => hk, fun k hk => hk⟩
  | cons op t ih =>
    obtain ⟨h1, h2, h3, h4⟩ := runOp_mono fig op
    obtain ⟨g1, g2, g3, g4⟩ := ih (fig.runOp op)
    exact ⟨le_trans h1 g1, le_trans h2 g2, fun k hk => g3 k (h3 k hk),
      fun k hk => g4 k (h4 k hk)⟩

theorem scanData_append_some {l : List (String × NDArray)}
    (l' : List (String × NDArray)) {t : Nat} {k : String}
    (h : scanData l t = some k) : scanData (l ++ l') t = some k := by
  induction l with
  | nil => cases h
  | cons d rest ih =>
    simp only [List.cons_append, scanData] at h ⊢
    by_cases hd : d.2.tok = t
    · rw [if_pos hd] at h ⊢; exact h
    · rw [if_neg hd] at h ⊢; exact ih h

theorem scanData_inj {l : List (String × NDArray)}
    (hkeys : (l.map Prod.fst).Nodup) {t1 t2 : Nat} {k : String}
    (h1 : scanData l t1 = some k) (h2 : scanData l t2 = some k) : t1 = t2 := by
  induction l with
  | nil => cases h1
  | cons d rest ih =>
    simp only [List.map_cons, List.nodup_cons] at hkeys
    simp only [scanData] at h1 h2
    by_cases hd1 : d.2.tok = t1 <;> by_cases hd2 : d.2.tok = t2
    · rw [← hd1, ← hd2]
    · rw [if_pos hd1] at h1
      rw [if_neg hd2] at h2
      injection h1 with hk
      have hk' : k ∈ List.map Prod.fst rest := scanData_mem_keys h2
      rw [← hk] at hk'
      exact absurd hk' hkeys.1
    · rw [if_neg hd1] at h1
      rw [if_pos hd2] at h2
      injection h2 with hk
      have hk' : k ∈ List.map Prod.fst rest := scanData_mem_keys h1
      rw [← hk] at hk'
      exact absurd hk' hkeys.1
    · rw [if_neg hd1] at h1
      rw [if_neg hd2] at h2
      exact ih hkeys.2 h1 h2

theorem addData_WF {fig : Figure} (a : NDArray)
    (hkeys : (fig.dataDict.map Prod.fst).Nodup)
    (htoks : (fig.dataDict.map (fun p => p.2.tok)).Nodup) :
    (((fig.addData (PyVal.ndarray a)).2).dataDict.map Prod.fst).Nodup ∧
    (((fig.addData (PyVal.ndarray a)).2).dataDict.map
      (fun p => p.2.tok)).Nodup := by
  cases hscan : scanData fig.dataDict a.tok with
  | some k => rw [addData_found hscan]; exact ⟨hkeys, htoks⟩
  | none =>
    rw [addData_new hscan]
    constructor
    · simp only [List.map_append, List.map_cons, List.map_nil]
      rw [List.nodup_append]
      refine ⟨hkeys, List.nodup_singleton _, ?_⟩
      intro x hx hxu
      simp only [List.mem_singleton] at hxu
      subst hxu
      exact fig.g.fresh_not_mem _ _ hx
    · simp only [List.map_append, List.map_cons, List.map_nil]
      rw [List.nodup_append]
      refine ⟨htoks, List.nodup_singleton _, ?_⟩
      intro x hx hxa
      simp only [List.mem_singleton] at hxa
      subst hxa
      obtain ⟨p, hp, hpt⟩ := List.mem_map.mp hx
      exact scanData_none_forall hscan p hp hpt

theorem addData_scan_stable (fig : Figure) (b : NDArray) {t : Nat} {k : String}
    (h : scanData fig.dataDict t = some k) :
    scanData ((fig.addData (PyVal.ndarray b)).2).dataDict t = some k := by
  cases hscan : scanData fig.dataDict b.tok with
  | some k2 => rw [addData_found hscan]; exact h
  | none => rw [addData_new hscan]; exact scanData_append_some _ h

theorem forall2_exists_left {R : NDArray → String → Prop}
    {l : List NDArray} {ids : List String} (h : List.Forall₂ R l ids) :
    ∀ {id : String}, id ∈ ids → ∃ b ∈ l, R b id := by
  induction h with
  | nil => intro id hid; cases hid
  | cons hR hRs ih =>
    intro id hid
    rcases List.mem_cons.mp hid with rfl | hid'
    · exact ⟨_, List.mem_cons_self _ _, hR⟩
    · obtain ⟨b, hb, hRb⟩ := ih hid'
      exact ⟨b, List.mem_cons_of_mem _ hb, hRb⟩

theorem addDataList_spec (l : List NDArray) :
    ∀ (fig : Figure),
      (fig.dataDict.map Prod.fst).Nodup →
      (fig.dataDict.map (fun p => p.2.tok)).Nodup →
      (l.map NDArray.tok).Nodup →
      (((fig.addDataList l).2).dataDict.map Prod.fst).Nodup ∧
      (((fig.addDataList l).2).dataDict.map (fun p => p.2.tok)).Nodup ∧
      (∀ t k, scanData fig.dataDict t = some k →
        scanData ((fig.addDataList l).2).dataDict t = some k) ∧
      List.Forall₂ (fun (a : NDArray) (id : String) =>
        scanData ((fig.addDataList l).2).dataDict a.tok = some id)
        l (fig.addDataList l).1 ∧
      ((fig.addDataList l).1).Nodup := by
  induction l with
  | nil =>
    intro fig h1 h2 _
    exact ⟨h1, h2, fun t k h => h, List.Forall₂.nil, List.nodup_nil⟩
  | cons a t ih =>
    intro fig h1 h2 h3
    obtain ⟨id1, fig1, hcall, hscan1, hkey1, -, -, -⟩ := addData_spec fig a
    have hstep : fig.addDataList (a :: t) =
        (id1 :: (fig1.addDataList t).1, (fig1.addDataList t).2) := by
      simp only [Figure.addDataList, hcall, List.singleton_append]
    have hWF1 : (fig1.dataDict.map Prod.fst).Nodup ∧
        (fig1.dataDict.map (fun p => p.2.tok)).Nodup := by
      have := addData_WF a h1 h2
      rwa [hcall] at this
    have hatok : a.tok ∉ t.map NDArray.tok := (List.nodup_cons.mp h3).1
    have h3' : (t.map NDArray.tok).Nodup := (List.nodup_cons.mp h3).2
    obtain ⟨g1, g2, g3, g4, g5⟩ := ih fig1 hWF1.1 hWF1.2 h3'
    rw [hstep]
    refine ⟨g1, g2, ?_, ?_, ?_⟩
    · intro t' k h
      apply g3
      have := addData_scan_stable fig a h
      rwa [hcall] at this
    · exact List.Forall₂.cons (g3 a.tok id1 hscan1) g4
    · rw [List.nodup_cons]
      refine ⟨?_, g5⟩
      intro hid
      obtain ⟨b, hb, hRb⟩ := forall2_exists_left g4 hid
      have hab : a.tok = b.tok := scanData_inj g1 (g3 a.tok id1 hscan1) hRb
      have hbt : b.tok ∈ t.map NDArray.tok := List.mem_map_of_mem _ hb
      rw [← hab] at hbt
      exact hatok hbt

/-- C6: ID uniqueness — a sequence of `addData` calls with buffers of
pairwise-distinct identity (on a figure whose registry has well-formed
keys and entries) returns pairwise-distinct IDs, one per call; an
`addData` call on an ndarray never surfaces an error (the collision
loop retries internally), and when the buffer is new the returned ID is
fresh, avoiding every existing registry key. -/
theorem C6_id_uniqueness (fig : Figure) (l : List NDArray)
    (hkeys : (fig.dataDict.map Prod.fst).Nodup)
    (htoks : (fig.dataDict.map (fun p => p.2.tok)).Nodup)
    (hnd : (l.map NDArray.tok).Nodup) :
    ((fig.addDataList l).1).Nodup ∧
    (fig.addDataList l).1.length = l.length ∧
    (∀ b : NDArray, ∃ id fig2,
      fig.addData (PyVal.ndarray b) = (Except.ok id, fig2)) ∧
    (∀ b : NDArray, scanData fig.dataDict b.tok = none →
      ∃ id fig2, fig.addData (PyVal.ndarray b) = (Except.ok id, fig2) ∧
        id ∉ fig.dataDict.map Prod.fst) := by
  obtain ⟨-, -, -, g4, g5⟩ := addDataList_spec l fig hkeys htoks hnd
  refine ⟨g5, (List.Forall₂.length_eq g4).symm, ?_, ?_⟩
  · intro b
    obtain ⟨id, fig2, hcall, -, -, -, -, -⟩ := addData_spec fig b
    exact ⟨id, fig2, hcall⟩
  · intro b hb
    rw [addData_new hb]
    exact ⟨_, _, rfl, fig.g.fresh_not_mem _ _⟩

/-- Witness for C6 at a fresh figure and three buffers with identity
tokens 0, 1 and 2. -/
theorem C6_witness :
    ((fig0.dataDict.map Prod.fst).Nodup) ∧
    ((fig0.dataDict.map (fun p => p.2.tok)).Nodup) ∧
    ((([⟨0, [1]⟩, ⟨1, [2]⟩, ⟨2, [3]⟩] : List NDArray).map NDArray.tok).Nodup) ∧
    (((fig0.addDataList [⟨0, [1]⟩, ⟨1, [2]⟩, ⟨2, [3]⟩]).1).Nodup ∧
      (fig0.addDataList [⟨0, [1]⟩, ⟨1, [2]⟩, ⟨2, [3]⟩]).1.length =
        ([⟨0, [1]⟩, ⟨1, [2]⟩, ⟨2, [3]⟩] : List NDArray).length ∧
      (∀ b : NDArray, ∃ id fig2,
        fig0.addData (PyVal.ndarray b) = (Except.ok id, fig2)) ∧
      (∀ b : NDArray, scanData fig0.dataDict b.tok = none →
        ∃ id fig2, fig0.addData (PyVal.ndarray b) = (Except.ok id, fig2) ∧
          id ∉ fig0.dataDict.map Prod.fst)) :=
  ⟨by simp [fig0, Figure.init], by simp [fig0, Figure.init], by decide,
    C6_id_uniqueness fig0 [⟨0, [1]⟩, ⟨1, [2]⟩, ⟨2, [3]⟩]
      (by simp [fig0, Figure.init]) (by simp [fig0, Figure.init]) (by decide)⟩
